import Mathlib

/-
Verification of the jrpc2 client of the glightning repository
(src/jrpc2/client.go). The client is embedded shallowly: the pendingReq
Go map becomes an association list with Go map semantics, the unbuffered
requestQueue channel becomes the ordered list of envelopes submitted to
it, goroutine time and the shutdown flag race in readQueue become
explicit parameters, and the per-call reply channel becomes an event
that reaches the blocked caller (a delivered response, or the nil read
from a channel closed by Shutdown).
-/

namespace Jrpc2

/-- Error message returned by Request when the shutdown flag is set
(client.go line 117). -/
def clientShutDownError : String := "Client is shutdown"

/-- Error message returned on the timeout branch of Request
(client.go line 133). -/
def timeoutErrorMsg : String := "Request timed out"

/-- Error message returned by handleReply for a nil reply, which is what
a caller receives when its reply channel is closed by Shutdown
(client.go line 139). -/
def pipeClosedError : String := "Pipe closed unexpectedly, nil result"

/-- Modelled from the spec: the Reply Envelope type (RawResponse lives in
the jrpc2 package's objects file, which is not under src). Per sections 3
and 6 of the spec it carries an optional identifier and result XOR error;
the error is kept as the message surfaced to the caller and the raw
result payload as an opaque string. -/
structure RawResponse where
  id : Option String
  error : Option String
  raw : String
deriving DecidableEq

/-- Modelled from the spec: Id and Id.Val live in the jrpc2 package's
objects file, which is not under src; identifiers are emitted as
incrementing integers and Val renders the decimal string form used as
the pendingReq key. -/
def idVal (i : Int) : String := toString i

/-- The Call Envelope (the Request struct built at client.go line 125):
identifier plus method; the parameters ride inside the method value and
play no further role here. -/
structure Request where
  id : Int
  method : String
deriving DecidableEq

/-- Observable action on a per-call reply channel: sendResponse
delivering a response to the slot of a registered id, or Shutdown
closing a slot (a blocked receiver of a closed channel reads nil). -/
inductive Event where
  | deliver (id : String) (resp : RawResponse)
  | closeSlot (id : String)
deriving DecidableEq

/-- One framed chunk handed to processResponse by the reader loop, with
the json decoding outcome made explicit: either a chunk that fails to
unmarshal or a well-formed RawResponse. -/
inductive Msg where
  | malformed
  | wellFormed (r : RawResponse)
deriving DecidableEq

/-- Modelled from the spec: the decode half of the codec (encoding/json
together with the scanDoubleNewline splitter, the latter not under src)
reduced to its outcome on one chunk. -/
def jsonUnmarshalResponse : Msg → Option RawResponse
  | Msg.malformed => none
  | Msg.wellFormed r => some r

/-- Lookup in the pendingReq map (Go map indexing with the ok flag,
client.go line 104). -/
def mapLookup : List (String × Nat) → String → Option Nat
  | [], _ => none
  | p :: rest, k => if p.1 = k then some p.2 else mapLookup rest k

/-- Go delete on the pendingReq map (client.go lines 110 and 132). -/
def mapDelete : List (String × Nat) → String → List (String × Nat)
  | [], _ => []
  | p :: rest, k => if p.1 = k then mapDelete rest k else p :: mapDelete rest k

/-- Go map assignment (client.go line 122): stores the key with the
value, replacing any existing entry for that key. -/
def mapStore (m : List (String × Nat)) (k : String) (v : Nat) : List (String × Nat) :=
  mapDelete m k ++ [(k, v)]

/-- Each key occurs at most once: the invariant every Go map enjoys by
construction, phrased on the association-list model. -/
def keysNodup : List (String × Nat) → Bool
  | [] => true
  | p :: rest => (mapLookup rest p.1).isNone && keysNodup rest

/-- The Client struct (client.go lines 20 to 26). The requestQueue
channel is modelled as the ordered list of envelopes submitted to it;
pendingReq maps a rendered id to a slot token standing for the reply
channel allocated for that call (nextSlot counts channel allocations);
timeout is in seconds, since the code multiplies the stored duration by
one second at use. The struct holds no lock. -/
structure Client where
  requestQueue : List Request
  pendingReq : List (String × Nat)
  requestCounter : Int
  shutdown : Bool
  timeout : Nat
  nextSlot : Nat
deriving DecidableEq

/-- NewClient (client.go lines 28 to 34): empty queue and registry, zero
counter, shutdown flag false (the zero value), default timeout of 20
seconds. -/
def NewClient : Client :=
  { requestQueue := [], pendingReq := [], requestCounter := 0,
    shutdown := false, timeout := 20, nextSlot := 0 }

/-- SetTimeout (client.go lines 36 to 38). -/
def SetTimeout (c : Client) (secs : Nat) : Client :=
  { c with timeout := secs }

/-- NextId (client.go lines 154 to 157): atomically increments the
request counter and returns the new value. -/
def NextId (c : Client) : Client × Int :=
  ({ c with requestCounter := c.requestCounter + 1 }, c.requestCounter + 1)

/-- The registration step of Request (client.go lines 121 to 122):
allocates a fresh reply channel (a fresh slot token) and stores it in
pendingReq under the rendered id by plain map assignment. -/
def register (c : Client) (id : String) : Client :=
  { c with pendingReq := mapStore c.pendingReq id c.nextSlot,
           nextSlot := c.nextSlot + 1 }

/-- The entry phase of Request (client.go lines 115 to 126): the
shutdown-flag check, id generation, registration, and the send of the
envelope onto the request queue. Returns the updated client and the
fresh id, or fails with the shutdown error before touching any state. -/
def requestEnter (c : Client) (m : String) : Except String (Client × Int) :=
  if c.shutdown then Except.error clientShutDownError
  else
    let p := NextId c
    let c1 := register p.1 (idVal p.2)
    Except.ok ({ c1 with requestQueue := c1.requestQueue ++ [{ id := p.2, method := m }] },
               p.2)

/-- handleReply (client.go lines 137 to 151): a nil reply yields the
closed-pipe error; a reply carrying an error surfaces it; otherwise the
raw payload is decoded into the caller's target (the decode itself is
not modelled and succeeds). -/
def handleReply : Option RawResponse → Except String Unit
  | none => Except.error pipeClosedError
  | some resp =>
    match resp.error with
    | some e => Except.error e
    | none => Except.ok ()

/-- True when no reply reaches the caller's channel within t seconds:
either none ever arrives, or one arrives only after the deadline. -/
def noReplyWithin (arrival : Option (Nat × Option RawResponse)) (t : Nat) : Bool :=
  match arrival with
  | none => true
  | some a => decide (t < a.1)

/-- The select phase of Request (client.go lines 128 to 134): a race
between the reply channel and the timeout timer. The arrival argument
gives the time in seconds and the content of the value read from the
reply channel, if any; the result is the client after the branch taken
(the timeout branch deletes the registry entry), the call's return
value, and the time at which the call returns. -/
def requestWait (c : Client) (id : Int) :
    Option (Nat × Option RawResponse) → Client × Except String Unit × Nat
  | some a =>
    if a.1 ≤ c.timeout then (c, handleReply a.2, a.1)
    else ({ c with pendingReq := mapDelete c.pendingReq (idVal id) },
          Except.error timeoutErrorMsg, c.timeout)
  | none =>
    ({ c with pendingReq := mapDelete c.pendingReq (idVal id) },
     Except.error timeoutErrorMsg, c.timeout)

/-- sendResponse (client.go lines 103 to 111): looks the id up in
pendingReq; if absent this is a logged no-op, otherwise the response is
sent on the reply channel and the entry deleted. -/
def sendResponse (c : Client) (id : String) (resp : RawResponse) : Client × Option Event :=
  match mapLookup c.pendingReq id with
  | none => (c, none)
  | some _ =>
    ({ c with pendingReq := mapDelete c.pendingReq id }, some (Event.deliver id resp))

/-- processResponse (client.go lines 81 to 101): unmarshal the chunk; a
parse failure is logged and dropped; a reply with nil or empty id is
logged and dropped; otherwise it is resolved against the registry. -/
def processResponse (c : Client) (msg : Msg) : Client × Option Event :=
  match jsonUnmarshalResponse msg with
  | none => (c, none)
  | some r =>
    match r.id with
    | none => (c, none)
    | some i => if i = "" then (c, none) else sendResponse c i r

/-- The double line-break frame delimiter (client.go line 59). -/
def twoNewlines : List Char := ['\n', '\n']

/-- Modelled from the spec: json.Marshal of a Call Envelope, rendered as
a placeholder structured string; all that matters here is that each
envelope yields one contiguous chunk of bytes. -/
def jsonMarshal (r : Request) : Option (List Char) :=
  some (String.data ("id:" ++ idVal r.id ++ " method:" ++ r.method))

/-- The bytes the Writer Loop puts on the wire for one envelope: the
marshalled data followed by the delimiter, or nothing when marshalling
fails (the envelope is skipped and the loop continues). -/
def encodeFrame (r : Request) : List Char :=
  match jsonMarshal r with
  | none => []
  | some d => d ++ twoNewlines

/-- setupWriteQueue (client.go lines 56 to 70): drains the queue in
order, fully writing and flushing each envelope's frame before taking
the next; the result is the complete byte stream written. -/
def setupWriteQueue : List Request → List Char
  | [] => []
  | r :: rest => encodeFrame r ++ setupWriteQueue rest

/-- How the reader loop exits: the scanner ran out of input, or the
shutdown flag was observed by the loop condition. -/
inductive ExitReason where
  | exhausted
  | sawShutdown
deriving DecidableEq

/-- Whether the shutdown flag, set concurrently by a Shutdown call
happening at loop iteration sAt (none when Shutdown is never called), is
visible at the given iteration. -/
def shutdownSeen (sAt : Option Nat) (step : Nat) : Bool :=
  match sAt with
  | none => false
  | some k => decide (k ≤ step)

/-- Result of running the reader loop: the final client, the deliveries
made, the input left unread at exit, and why the loop exited. -/
structure ReadResult where
  client : Client
  events : List Event
  leftover : List Msg
  reason : ExitReason
deriving DecidableEq

/-- readQueue (client.go lines 72 to 79): scan one chunk, re-check the
shutdown flag, process the chunk, repeat; the per-chunk goroutine
dispatch of processResponse is modelled as processing each chunk in
arrival order. -/
def readQueueAux : Client → List Msg → Option Nat → Nat → ReadResult
  | c, [], _, _ => ⟨c, [], [], ExitReason.exhausted⟩
  | c, m :: rest, sAt, step =>
    if shutdownSeen sAt step then ⟨c, [], m :: rest, ExitReason.sawShutdown⟩
    else
      let p := processResponse c m
      let r := readQueueAux p.1 rest sAt (step + 1)
      ⟨r.client, p.2.toList ++ r.events, r.leftover, r.reason⟩

/-- readQueue run from its first iteration. -/
def readQueue (c : Client) (input : List Msg) (sAt : Option Nat) : ReadResult :=
  readQueueAux c input sAt 0

/-- Shutdown (client.go lines 46 to 54): sets the shutdown flag, closes
the request queue, closes every pending reply channel (each blocked
receiver then reads nil), and installs a fresh empty registry and a
fresh queue. Returns the new client and the close events, one per
pending entry. -/
def Shutdown (c : Client) : Client × List Event :=
  ({ c with shutdown := true, pendingReq := [], requestQueue := [] },
   c.pendingReq.map (fun p => Event.closeSlot p.1))

/-- What a caller blocked on its reply channel returns once the given
event reaches it: a delivered response goes through handleReply; a
closed channel reads as nil and goes through handleReply on nil. -/
def callerRelease : Event → Except String Unit
  | Event.deliver _ r => handleReply (some r)
  | Event.closeSlot _ => handleReply none

/-- A client together with counters of how many Writer Loop goroutines
were ever launched and how many reader loops were run, making a double
launch observable. -/
structure Sys where
  client : Client
  writerLoops : Nat
  readerRuns : Nat
deriving DecidableEq

/-- StartUp (client.go lines 40 to 44): unconditionally clears the
shutdown flag, launches a Writer Loop goroutine, then runs the reader
loop on the calling goroutine to completion; StartUp returns exactly
when the reader loop does. -/
def StartUp (s : Sys) (input : List Msg) (sAt : Option Nat) : Sys × ReadResult :=
  let r := readQueue { s.client with shutdown := false } input sAt
  (⟨r.client, s.writerLoops + 1, s.readerRuns + 1⟩, r)

/-- Shutdown lifted to Sys: it launches no loop. -/
def ShutdownS (s : Sys) : Sys × List Event :=
  ((⟨(Shutdown s.client).1, s.writerLoops, s.readerRuns⟩ : Sys), (Shutdown s.client).2)

/-- Whether an event is a delivery (as opposed to a close/release). -/
def isDeliver : Event → Bool
  | Event.deliver _ _ => true
  | Event.closeSlot _ => false

/-- The writer's output for a concatenation of queues is the
concatenation of the outputs, in order. -/
theorem setupWriteQueue_append (xs ys : List Request) :
    setupWriteQueue (xs ++ ys) = setupWriteQueue xs ++ setupWriteQueue ys := by
  induction xs with
  | nil => simp [setupWriteQueue]
  | cons r rest ih => simp [setupWriteQueue, ih]

/-- Looking a key up right after deleting it finds nothing. -/
theorem mapLookup_mapDelete_self (m : List (String × Nat)) (k : String) :
    mapLookup (mapDelete m k) k = none := by
  induction m with
  | nil => rfl
  | cons p rest ih =>
    by_cases h : p.1 = k
    · simp [mapDelete, h, ih]
    · simp [mapDelete, mapLookup, h, ih]

/-- Lookup falls through an initial segment in which the key is absent. -/
theorem mapLookup_append_of_none (xs ys : List (String × Nat)) (k : String)
    (h : mapLookup xs k = none) : mapLookup (xs ++ ys) k = mapLookup ys k := by
  induction xs with
  | nil => rfl
  | cons p rest ih =>
    by_cases hp : p.1 = k
    · simp [mapLookup, hp] at h
    · simp only [mapLookup, hp, if_false, List.cons_append, if_neg hp] at h ⊢
      exact ih h

/-- A store is observable: looking the key up afterwards yields the
stored value. -/
theorem mapLookup_mapStore_self (m : List (String × Nat)) (k : String) (v : Nat) :
    mapLookup (mapStore m k v) k = some v := by
  rw [mapStore, mapLookup_append_of_none _ _ _ (mapLookup_mapDelete_self m k)]
  simp [mapLookup]

/-- Deleting one key cannot make another key appear. -/
theorem mapLookup_mapDelete_none (m : List (String × Nat)) (k j : String)
    (h : mapLookup m j = none) : mapLookup (mapDelete m k) j = none := by
  induction m with
  | nil => rfl
  | cons p rest ih =>
    by_cases hj : p.1 = j
    · simp [mapLookup, hj] at h
    · by_cases hk : p.1 = k
      · simp only [mapLookup, if_neg hj] at h
        simp only [mapDelete, if_pos hk]
        exact ih h
      · simp only [mapLookup, if_neg hj] at h
        simp only [mapDelete, if_neg hk, mapLookup, if_neg hj]
        exact ih h

/-- Helper for key uniqueness of a store: deleting a key and appending a
single entry for it keeps the keys unique. -/
theorem keysNodup_delete_single (m : List (String × Nat)) (k : String) (v : Nat) :
    keysNodup m = true → keysNodup (mapDelete m k ++ [(k, v)]) = true := by
  induction m with
  | nil =>
    intro _
    simp [mapDelete, keysNodup, mapLookup]
  | cons p rest ih =>
    intro h
    rw [keysNodup, Bool.and_eq_true] at h
    obtain ⟨h1, h2⟩ := h
    rw [Option.isNone_iff_eq_none] at h1
    by_cases hk : p.1 = k
    · simp only [mapDelete, if_pos hk]
      exact ih h2
    · simp only [mapDelete, if_neg hk, List.cons_append, keysNodup, Bool.and_eq_true]
      constructor
      · rw [Option.isNone_iff_eq_none,
            mapLookup_append_of_none _ _ _ (mapLookup_mapDelete_none rest k p.1 h1)]
        have hk' : ¬ k = p.1 := fun e => hk e.symm
        simp [mapLookup, hk']
      · exact ih h2

/-- A Go map assignment preserves key uniqueness. -/
theorem keysNodup_mapStore (m : List (String × Nat)) (k : String) (v : Nat)
    (h : keysNodup m = true) : keysNodup (mapStore m k v) = true := by
  rw [mapStore]
  exact keysNodup_delete_single m k v h

/-- The successful entry phase of Request, spelled out: a fresh id, the
registry store under the rendered id, and the envelope appended at the
tail of the queue. -/
theorem requestEnter_ok (c : Client) (m : String) (h : c.shutdown = false) :
    requestEnter c m = Except.ok
      ({ requestQueue := c.requestQueue ++ [{ id := c.requestCounter + 1, method := m }],
         pendingReq := mapStore c.pendingReq (idVal (c.requestCounter + 1)) c.nextSlot,
         requestCounter := c.requestCounter + 1,
         shutdown := c.shutdown,
         timeout := c.timeout,
         nextSlot := c.nextSlot + 1 }, c.requestCounter + 1) := by
  simp [requestEnter, h, NextId, register]

/-- sendResponse never touches the shutdown flag. -/
theorem sendResponse_shutdown (c : Client) (i : String) (r : RawResponse) :
    (sendResponse c i r).1.shutdown = c.shutdown := by
  rw [sendResponse]
  cases mapLookup c.pendingReq i <;> rfl

/-- processResponse never touches the shutdown flag. -/
theorem processResponse_shutdown (c : Client) (m : Msg) :
    (processResponse c m).1.shutdown = c.shutdown := by
  cases m with
  | malformed => rfl
  | wellFormed r =>
    simp only [processResponse, jsonUnmarshalResponse]
    cases hid : r.id with
    | none => simp
    | some i =>
      by_cases hi : i = ""
      · simp [hi]
      · simp [hi, sendResponse_shutdown]

/-- Any event sendResponse emits is a delivery. -/
theorem sendResponse_event_deliver (c : Client) (i : String) (r : RawResponse) (e : Event)
    (h : (sendResponse c i r).2 = some e) : isDeliver e = true := by
  rw [sendResponse] at h
  cases hl : mapLookup c.pendingReq i <;> rw [hl] at h
  · exact absurd h (by simp)
  · simp only [Option.some.injEq] at h
    rw [h.symm]
    rfl

/-- Any event processResponse emits is a delivery. -/
theorem processResponse_event_deliver (c : Client) (m : Msg) (e : Event)
    (h : (processResponse c m).2 = some e) : isDeliver e = true := by
  cases m with
  | malformed => exact absurd h (by simp [processResponse, jsonUnmarshalResponse])
  | wellFormed r =>
    rw [processResponse] at h
    cases hid : r.id with
    | none =>
      simp only [jsonUnmarshalResponse, hid] at h
      exact absurd h (by simp)
    | some i =>
      simp only [jsonUnmarshalResponse, hid] at h
      by_cases hie : i = ""
      · rw [if_pos hie] at h
        exact absurd h (by simp)
      · rw [if_neg hie] at h
        exact sendResponse_event_deliver c i r e h

/-- Every event the reader loop ever emits is a delivery. -/
theorem readQueueAux_all_deliver (input : List Msg) :
    ∀ (c : Client) (sAt : Option Nat) (step : Nat),
    (readQueueAux c input sAt step).events.all isDeliver = true := by
  induction input with
  | nil => intro c sAt step; rfl
  | cons m rest ih =>
    intro c sAt step
    by_cases h : shutdownSeen sAt step = true
    · simp [readQueueAux, h]
    · simp only [readQueueAux, if_neg h, List.all_append, Bool.and_eq_true]
      constructor
      · cases hp : (processResponse c m).2 with
        | none => rfl
        | some e =>
          simp only [Option.toList, List.all_cons, Bool.and_eq_true]
          exact ⟨processResponse_event_deliver c m e hp, rfl⟩
      · exact ih (processResponse c m).1 sAt (step + 1)

/-- The reader loop never changes the shutdown flag. -/
theorem readQueueAux_shutdown (input : List Msg) :
    ∀ (c : Client) (sAt : Option Nat) (step : Nat),
    (readQueueAux c input sAt step).client.shutdown = c.shutdown := by
  induction input with
  | nil => intro c sAt step; rfl
  | cons m rest ih =>
    intro c sAt step
    by_cases h : shutdownSeen sAt step = true
    · simp [readQueueAux, h]
    · simp only [readQueueAux, if_neg h]
      rw [ih, processResponse_shutdown]

/-- The reader loop returns only once the input is exhausted or it has
observed the shutdown flag (which requires a Shutdown call). -/
theorem readQueueAux_exit (input : List Msg) :
    ∀ (c : Client) (sAt : Option Nat) (step : Nat),
    (readQueueAux c input sAt step).leftover = [] ∨
    ((readQueueAux c input sAt step).reason = ExitReason.sawShutdown ∧ sAt ≠ none) := by
  induction input with
  | nil => intro c sAt step; left; rfl
  | cons m rest ih =>
    intro c sAt step
    by_cases h : shutdownSeen sAt step = true
    · right
      refine ⟨by simp [readQueueAux, h], ?_⟩
      cases sAt with
      | none => exact absurd h (by simp [shutdownSeen])
      | some k => exact Option.some_ne_none k
    · simp only [readQueueAux, if_neg h]
      exact ih (processResponse c m).1 sAt (step + 1)

/-- Releasing every closed slot yields the closed-pipe error for each. -/
theorem map_close_release (l : List (String × Nat)) :
    (l.map (fun p => Event.closeSlot p.1)).map callerRelease =
      List.replicate l.length (Except.error pipeClosedError) := by
  induction l with
  | nil => rfl
  | cons p rest ih => simp [callerRelease, handleReply, ih, List.replicate_succ]

/-- C1 counterexample: on a freshly constructed client — the NotStarted
state, StartUp never called — Request does not return the ClientShutDown
error: the shutdown flag is false at construction, so the call proceeds,
registers identifier 1 in the registry and enqueues the envelope. -/
theorem request_before_startup_counterexample :
    NewClient.shutdown = false ∧
    requestEnter NewClient "getinfo" = Except.ok
      ({ requestQueue := [{ id := 1, method := "getinfo" }],
         pendingReq := [("1", 0)],
         requestCounter := 1, shutdown := false, timeout := 20, nextSlot := 1 }, 1) :=
  ⟨rfl, rfl⟩

/-- C1 (amended): once the shutdown flag is set — the only not-running
state the code tracks, entered by Shutdown — Request fails immediately
with the ClientShutDown error; the error return carries no updated
client, so nothing is registered and nothing is enqueued. -/
theorem request_after_shutdown_rejected (c : Client) (m : String) (h : c.shutdown = true) :
    requestEnter c m = Except.error clientShutDownError := by
  simp [requestEnter, h]

theorem request_after_shutdown_rejected_witness :
    (Shutdown NewClient).1.shutdown = true ∧
    requestEnter (Shutdown NewClient).1 "getinfo" = Except.error clientShutDownError :=
  ⟨rfl, request_after_shutdown_rejected (Shutdown NewClient).1 "getinfo" rfl⟩

/-- C2 counterexample: a client with one pending registry entry whose
reader loop terminates by input exhaustion: readQueue returns with no
event delivered and the entry still pending — no drain is invoked, so
the blocked caller is not released at reader termination. -/
theorem readqueue_no_drain_counterexample :
    readQueue { requestQueue := [], pendingReq := [("1", 0)], requestCounter := 1,
                shutdown := false, timeout := 20, nextSlot := 1 } [] none =
      ⟨{ requestQueue := [], pendingReq := [("1", 0)], requestCounter := 1,
         shutdown := false, timeout := 20, nextSlot := 1 }, [], [], ExitReason.exhausted⟩ :=
  rfl

/-- C2 (amended): whenever the reader loop terminates it performs no
registry drain: every event it ever emits is a delivery to a matched
identifier, never a close or release of a pending entry, so callers
still blocked stay blocked until their own timeout or an explicit
Shutdown call. -/
theorem readqueue_never_drains (c : Client) (input : List Msg) (sAt : Option Nat) :
    (readQueue c input sAt).events.all isDeliver = true :=
  readQueueAux_all_deliver input c sAt 0

/-- C3 counterexample: with one caller blocked on identifier 1, Shutdown
releases it by closing its reply channel; the caller then returns the
closed-pipe error, which is not the ClientShutDown error the claim
names (the one returned to post-shutdown invokes). -/
theorem shutdown_release_error_counterexample :
    (Shutdown { requestQueue := [], pendingReq := [("1", 0)], requestCounter := 1,
                shutdown := false, timeout := 20, nextSlot := 1 }).2 =
      [Event.closeSlot "1"] ∧
    callerRelease (Event.closeSlot "1") = Except.error pipeClosedError ∧
    pipeClosedError ≠ clientShutDownError := by
  refine ⟨rfl, rfl, ?_⟩
  decide

/-- C3 (amended): Shutdown closes every pending reply channel, so every
caller blocked awaiting a reply is released at once and returns the
closed-pipe error — an error, not a result and not the timeout error,
but distinct from the ClientShutDown error — while every Request issued
afterwards fails immediately with the ClientShutDown error; Shutdown
leaves the outbound queue empty, so nothing further reaches the output
stream. -/
theorem shutdown_release_and_reject (c : Client) :
    (Shutdown c).1.shutdown = true ∧
    (Shutdown c).2 = c.pendingReq.map (fun p => Event.closeSlot p.1) ∧
    (Shutdown c).2.map callerRelease =
      List.replicate c.pendingReq.length (Except.error pipeClosedError) ∧
    (∀ m : String, requestEnter (Shutdown c).1 m = Except.error clientShutDownError) ∧
    (Shutdown c).1.requestQueue = [] ∧
    setupWriteQueue (Shutdown c).1.requestQueue = [] := by
  refine ⟨rfl, rfl, map_close_release c.pendingReq, ?_, rfl, rfl⟩
  intro m
  simp [requestEnter, Shutdown]

/-- C4: for two calls accepted sequentially while running, the Writer
Loop puts the complete frame of the first on the wire before any byte of
the second: the written stream is the stream for the prior queue
followed by the first call's frame and then the second call's frame. -/
theorem writer_preserves_submission_order (c cA cB : Client) (mA mB : String) (idA idB : Int)
    (h : c.shutdown = false)
    (hA : requestEnter c mA = Except.ok (cA, idA))
    (hB : requestEnter cA mB = Except.ok (cB, idB)) :
    setupWriteQueue cB.requestQueue =
      setupWriteQueue c.requestQueue
        ++ encodeFrame { id := idA, method := mA }
        ++ encodeFrame { id := idB, method := mB } := by
  rw [requestEnter_ok c mA h] at hA
  rw [Except.ok.injEq, Prod.mk.injEq] at hA
  obtain ⟨hA1, hA2⟩ := hA
  rw [requestEnter_ok cA mB (by rw [hA1.symm]; exact h)] at hB
  rw [Except.ok.injEq, Prod.mk.injEq] at hB
  obtain ⟨hB1, hB2⟩ := hB
  rw [hB1.symm, hA1.symm, hA2.symm, hB2.symm]
  rw [hA1.symm]
  rw [setupWriteQueue_append, setupWriteQueue_append]
  simp [setupWriteQueue, List.append_assoc]

theorem writer_preserves_submission_order_witness :
    NewClient.shutdown = false ∧
    requestEnter NewClient "ping" = Except.ok
      ({ requestQueue := [{ id := 1, method := "ping" }], pendingReq := [("1", 0)],
         requestCounter := 1, shutdown := false, timeout := 20, nextSlot := 1 }, 1) ∧
    requestEnter
      { requestQueue := [{ id := 1, method := "ping" }], pendingReq := [("1", 0)],
        requestCounter := 1, shutdown := false, timeout := 20, nextSlot := 1 } "pong" =
      Except.ok
      ({ requestQueue := [{ id := 1, method := "ping" }, { id := 2, method := "pong" }],
         pendingReq := [("1", 0), ("2", 1)],
         requestCounter := 2, shutdown := false, timeout := 20, nextSlot := 2 }, 2) ∧
    setupWriteQueue
        [{ id := 1, method := "ping" }, { id := 2, method := "pong" }] =
      setupWriteQueue NewClient.requestQueue
        ++ encodeFrame { id := 1, method := "ping" }
        ++ encodeFrame { id := 2, method := "pong" } :=
  ⟨rfl, rfl, rfl,
   writer_preserves_submission_order NewClient
     { requestQueue := [{ id := 1, method := "ping" }], pendingReq := [("1", 0)],
       requestCounter := 1, shutdown := false, timeout := 20, nextSlot := 1 }
     { requestQueue := [{ id := 1, method := "ping" }, { id := 2, method := "pong" }],
       pendingReq := [("1", 0), ("2", 1)],
       requestCounter := 2, shutdown := false, timeout := 20, nextSlot := 2 }
     "ping" "pong" 1 2 rfl rfl rfl⟩

/-- C5: when no reply reaches the caller's channel within the configured
timeout, Request returns the timeout error at a time no earlier than the
timeout, and on return the registry entry for the identifier has been
deleted, so a later stray reply finds no entry. -/
theorem request_timeout_removes_entry (c : Client) (id : Int)
    (arrival : Option (Nat × Option RawResponse))
    (h : noReplyWithin arrival c.timeout = true) :
    (requestWait c id arrival).2.1 = Except.error timeoutErrorMsg ∧
    c.timeout ≤ (requestWait c id arrival).2.2 ∧
    mapLookup (requestWait c id arrival).1.pendingReq (idVal id) = none := by
  cases arrival with
  | none =>
    exact ⟨rfl, le_refl _, mapLookup_mapDelete_self c.pendingReq (idVal id)⟩
  | some a =>
    rw [noReplyWithin] at h
    have ha : ¬ a.1 ≤ c.timeout := by
      have := of_decide_eq_true h
      omega
    rw [requestWait, if_neg ha]
    exact ⟨rfl, le_refl _, mapLookup_mapDelete_self c.pendingReq (idVal id)⟩

theorem request_timeout_removes_entry_witness :
    noReplyWithin none NewClient.timeout = true ∧
    ((requestWait NewClient 1 none).2.1 = Except.error timeoutErrorMsg ∧
     NewClient.timeout ≤ (requestWait NewClient 1 none).2.2 ∧
     mapLookup (requestWait NewClient 1 none).1.pendingReq (idVal 1) = none) :=
  ⟨rfl, request_timeout_removes_entry NewClient 1 none rfl⟩

/-- C6: resolving a reply whose identifier has no registry entry — a
stray, a duplicate of an already-resolved reply, or a reply for a timed
out identifier — is a no-op: the client comes back unchanged, nothing is
delivered, no entry is removed, every other in-flight call untouched. -/
theorem resolve_stray_noop (c : Client) (id : String) (resp : RawResponse)
    (h : mapLookup c.pendingReq id = none) :
    sendResponse c id resp = (c, none) := by
  simp [sendResponse, h]

theorem resolve_stray_noop_witness :
    mapLookup NewClient.pendingReq "99" = none ∧
    sendResponse NewClient "99" { id := some "99", error := none, raw := "" } =
      (NewClient, none) :=
  ⟨rfl, resolve_stray_noop NewClient "99" { id := some "99", error := none, raw := "" } rfl⟩

/-- C7 counterexample: registering identifier 1 while identifier 1 is
already registered with reply slot 0 is not rejected: the map store
replaces the entry, dropping the old slot 0 and installing the fresh
slot 1. -/
theorem register_replaces_counterexample :
    (register { requestQueue := [], pendingReq := [("1", 0)], requestCounter := 1,
                shutdown := false, timeout := 20, nextSlot := 1 } "1").pendingReq =
      [("1", 1)] :=
  rfl

/-- C7 (amended): registration is an unconditional map store: it
installs the fresh reply slot under the identifier, silently replacing
any existing entry rather than rejecting the registration; key
uniqueness of the registry is preserved, so it never holds more than one
entry per identifier. -/
theorem register_overwrites (c : Client) (id : String) (h : keysNodup c.pendingReq = true) :
    mapLookup (register c id).pendingReq id = some c.nextSlot ∧
    keysNodup (register c id).pendingReq = true ∧
    (register c id).nextSlot = c.nextSlot + 1 :=
  ⟨mapLookup_mapStore_self c.pendingReq id c.nextSlot,
   keysNodup_mapStore c.pendingReq id c.nextSlot h, rfl⟩

theorem register_overwrites_witness :
    keysNodup NewClient.pendingReq = true ∧
    (mapLookup (register NewClient "1").pendingReq "1" = some NewClient.nextSlot ∧
     keysNodup (register NewClient "1").pendingReq = true ∧
     (register NewClient "1").nextSlot = NewClient.nextSlot + 1) :=
  ⟨rfl, register_overwrites NewClient "1" rfl⟩

/-- C8 counterexample: StartUp, then Shutdown, then StartUp again: after
the second StartUp the client is back in the running state (the shutdown
flag is clear again), so ShutDown is not terminal, and two Writer Loop
goroutines have been launched. -/
theorem lifecycle_restart_counterexample :
    (ShutdownS (StartUp ⟨NewClient, 0, 0⟩ [] none).1).1.client.shutdown = true ∧
    (StartUp (ShutdownS (StartUp ⟨NewClient, 0, 0⟩ [] none).1).1 []
        none).1.client.shutdown = false ∧
    (StartUp (ShutdownS (StartUp ⟨NewClient, 0, 0⟩ [] none).1).1 []
        none).1.writerLoops = 2 :=
  ⟨rfl, rfl, rfl⟩

/-- C8 (amended): the lifecycle state is only the boolean shutdown flag:
every call to StartUp clears the flag — re-entering the running state
even from ShutDown — and launches one more Writer Loop goroutine and one
more reader run; nothing rejects or ignores a repeated StartUp. -/
theorem startup_always_relaunches (s : Sys) (input : List Msg) (sAt : Option Nat) :
    (StartUp s input sAt).1.client.shutdown = false ∧
    (StartUp s input sAt).1.writerLoops = s.writerLoops + 1 ∧
    (StartUp s input sAt).1.readerRuns = s.readerRuns + 1 := by
  refine ⟨?_, rfl, rfl⟩
  show (readQueue { s.client with shutdown := false } input sAt).client.shutdown = false
  rw [readQueue, readQueueAux_shutdown]

/-- C9: evaluation of the three concurrent access paths at one concrete
client: registration from a Request caller, resolution from a reader
goroutine via sendResponse, and cancellation from a timing-out caller
via the timeout branch all mutate the pendingReq field of the one shared
Client value, a structure that holds no lock of any kind. -/
theorem registry_three_paths_mutate :
    requestEnter { requestQueue := [], pendingReq := [("1", 0)], requestCounter := 1,
                   shutdown := false, timeout := 20, nextSlot := 1 } "getinfo" =
      Except.ok
        ({ requestQueue := [{ id := 2, method := "getinfo" }],
           pendingReq := [("1", 0), ("2", 1)], requestCounter := 2,
           shutdown := false, timeout := 20, nextSlot := 2 }, 2) ∧
    (sendResponse { requestQueue := [], pendingReq := [("1", 0)], requestCounter := 1,
                    shutdown := false, timeout := 20, nextSlot := 1 } "1"
        { id := some "1", error := none, raw := "" }).1.pendingReq = [] ∧
    (requestWait { requestQueue := [], pendingReq := [("1", 0)], requestCounter := 1,
                   shutdown := false, timeout := 20, nextSlot := 1 } 1
        none).1.pendingReq = [] :=
  ⟨rfl, rfl, rfl⟩

/-- C10: StartUp runs the reader loop on the calling execution context
and its return value is exactly the reader loop's completion: at
StartUp's return either the input stream was exhausted (no unread input
remains) or the loop exited because it observed the shutdown flag, which
requires a Shutdown call to have happened. -/
theorem startup_returns_after_reader (s : Sys) (input : List Msg) (sAt : Option Nat) :
    (StartUp s input sAt).2 = readQueue { s.client with shutdown := false } input sAt ∧
    ((StartUp s input sAt).2.leftover = [] ∨
     ((StartUp s input sAt).2.reason = ExitReason.sawShutdown ∧ sAt ≠ none)) :=
  ⟨rfl, readQueueAux_exit input { s.client with shutdown := false } sAt 0⟩

end Jrpc2
